import Mathlib

/-!
Formal model of the sayfight.com game server core.

This file gives a shallow embedding, in Lean, of the room lifecycle manager
(`RoomManager`), the voice command matcher (`CommandExtractor`) and the game
simulation engine (`GameManager`) of the backend, together with theorems about
the embedded operations.

Modelling conventions:
- JavaScript `Map` objects are modelled as insertion-ordered association
  lists `List (String × α)`; `mapGet`, `mapSet`, `mapDelete`, `mapHas` mirror
  `Map.get`, `Map.set`, `Map.delete`, `Map.has` (set replaces the value at an
  existing key in place and appends a fresh key at the end, as JS does).
- `Date` timestamps are modelled as integer milliseconds (`Int`), compared
  with the usual order, matching comparison of `Date` values in the source.
- JS numbers in the game physics are modelled as exact rationals (`ℚ`).
  Every constant and every concrete value reached in the theorems below is
  far from any double rounding boundary, so the rational model agrees with
  the float semantics of the source at all the points proved here.
- `Math.random()` draws are modelled by an explicit stream `g : Nat → Fin 26`
  of character indices, and the rejection-sampling loop of
  `generateRoomCode` is given explicit fuel, returning `none` when the fuel
  runs out.
-/

/-! ## Association list model of JS `Map` -/

def mapGet {α : Type} : List (String × α) → String → Option α
  | [], _ => none
  | (k, v) :: rest, key => if k = key then some v else mapGet rest key

def mapHas {α : Type} (m : List (String × α)) (key : String) : Bool :=
  (mapGet m key).isSome

def mapSet {α : Type} : List (String × α) → String → α → List (String × α)
  | [], key, v => [(key, v)]
  | (k, w) :: rest, key, v =>
    if k = key then (k, v) :: rest else (k, w) :: mapSet rest key v

def mapDelete {α : Type} (m : List (String × α)) (key : String) : List (String × α) :=
  m.filter (fun kv => kv.1 != key)

/-! ## RoomManager data model (src/services/RoomManager.ts and src/types) -/

structure Player where
  id : String
  name : String
  roomCode : String
  socketId : String
  connected : Bool
deriving Repr, DecidableEq

structure ReadyState where
  ready : Bool
  hasMic : Bool
deriving Repr, DecidableEq

structure Room where
  code : String
  hostSocketId : String
  players : List (String × Player)
  gameState : String
  createdAt : Int
  hostDisconnectedAt : Option Int
  readyPlayers : List (String × ReadyState)
deriving Repr, DecidableEq

structure ManagerState where
  rooms : List (String × Room)
  playerToRoom : List (String × String)
deriving Repr, DecidableEq

def emptyManagerState : ManagerState := { rooms := [], playerToRoom := [] }

/-! ## RoomManager operations -/

/-- The character pool of `generateRoomCode`. -/
def roomCodeCharacters : String := "ABCDEFGHIJKLMNOPQRSTUVWXYZ"

/-- `characters.charAt(i)` for an index below 26 (the default is never used,
every index handed in is a `Fin 26`). -/
def roomCodeCharAt (i : Fin 26) : Char :=
  roomCodeCharacters.data.getD i.val 'A'

/-- One iteration of the code-building loop: four fresh draws from the random
stream, consumed at positions `4*attempt .. 4*attempt+3`. -/
def buildRoomCode (g : Nat → Fin 26) (attempt : Nat) : String :=
  ⟨[roomCodeCharAt (g (4 * attempt)), roomCodeCharAt (g (4 * attempt + 1)),
    roomCodeCharAt (g (4 * attempt + 2)), roomCodeCharAt (g (4 * attempt + 3))]⟩

/-- The do/while rejection-sampling loop of `RoomManager.generateRoomCode`,
with explicit fuel. -/
def generateRoomCodeAux (rooms : List (String × Room)) (g : Nat → Fin 26) :
    Nat → Nat → Option String
  | _, 0 => none
  | attempt, fuel + 1 =>
    let code := buildRoomCode g attempt
    if mapHas rooms code then generateRoomCodeAux rooms g (attempt + 1) fuel
    else some code

def generateRoomCode (rooms : List (String × Room)) (g : Nat → Fin 26) (fuel : Nat) :
    Option String :=
  generateRoomCodeAux rooms g 0 fuel

/-- The fresh `Room` record built by `RoomManager.createRoom`. -/
def newRoom (code hostSocketId : String) (now : Int) : Room :=
  { code := code
    hostSocketId := hostSocketId
    players := []
    gameState := "waiting"
    createdAt := now
    hostDisconnectedAt := none
    readyPlayers := [] }

/-- `RoomManager.createRoom`: generate a fresh code, insert the new room. -/
def createRoom (st : ManagerState) (g : Nat → Fin 26) (fuel : Nat)
    (hostSocketId : String) (now : Int) : Option (String × ManagerState) :=
  match generateRoomCode st.rooms g fuel with
  | none => none
  | some code =>
    some (code, { st with rooms := mapSet st.rooms code (newRoom code hostSocketId now) })

/-- `RoomManager.joinRoom`: fails when the room is absent or not waiting;
otherwise inserts the player and binds its socket. -/
def joinRoom (st : ManagerState) (roomCode : String) (player : Player) :
    Bool × ManagerState :=
  match mapGet st.rooms roomCode with
  | none => (false, st)
  | some room =>
    if room.gameState ≠ "waiting" then (false, st)
    else
      let room2 := { room with players := mapSet room.players player.id player }
      (true, { rooms := mapSet st.rooms roomCode room2
               playerToRoom := mapSet st.playerToRoom player.socketId roomCode })

structure LeaveResult where
  roomCode : String
  playerId : String
  isHost : Bool
deriving Repr, DecidableEq

/-- The player-marking loop of `leaveRoom`: find the first player whose
socket matches, set `connected := false`, stop. Returns the found player id
and the updated player list. -/
def markFirstDisconnected : List (String × Player) → String →
    Option String × List (String × Player)
  | [], _ => (none, [])
  | (id, p) :: rest, socketId =>
    if p.socketId = socketId then
      (some id, (id, { p with connected := false }) :: rest)
    else
      let r := markFirstDisconnected rest socketId
      (r.1, (id, p) :: r.2)

/-- `RoomManager.leaveRoom`. Mirrors the source exactly: the very first step
looks the socket up in `playerToRoom` and returns `null` on a miss, before
the host check is ever reached. -/
def leaveRoom (st : ManagerState) (now : Int) (socketId : String) :
    Option LeaveResult × ManagerState :=
  match mapGet st.playerToRoom socketId with
  | none => (none, st)
  | some roomCode =>
    match mapGet st.rooms roomCode with
    | none => (none, st)
    | some room =>
      let marked := markFirstDisconnected room.players socketId
      let ptr2 := mapDelete st.playerToRoom socketId
      if room.hostSocketId = socketId then
        let room2 := { room with players := marked.2, hostDisconnectedAt := some now }
        (some { roomCode := roomCode, playerId := "host", isHost := true },
         { rooms := mapSet st.rooms roomCode room2, playerToRoom := ptr2 })
      else
        let room2 := { room with players := marked.2 }
        match marked.1 with
        | some pid =>
          (some { roomCode := roomCode, playerId := pid, isHost := false },
           { rooms := mapSet st.rooms roomCode room2, playerToRoom := ptr2 })
        | none =>
          (none, { rooms := mapSet st.rooms roomCode room2, playerToRoom := ptr2 })

/-- `RoomManager.reconnectHost`: fails only when the room is absent;
otherwise rebinds the host socket and clears the disconnection timestamp. -/
def reconnectHost (st : ManagerState) (roomCode newSocketId : String) :
    Option Room × ManagerState :=
  match mapGet st.rooms roomCode with
  | none => (none, st)
  | some room =>
    let room2 := { room with hostSocketId := newSocketId, hostDisconnectedAt := none }
    (some room2, { st with rooms := mapSet st.rooms roomCode room2 })

/-- The deletion condition of `cleanupOldRooms`: two hours old, or host
disconnected more than 30 seconds ago. -/
def shouldCleanupRoom (room : Room) (now : Int) : Bool :=
  decide (room.createdAt < now - 2 * 60 * 60 * 1000) ||
    (match room.hostDisconnectedAt with
     | some t => decide (t < now - 30 * 1000)
     | none => false)

/-- Release the `playerToRoom` bindings of every player of a room. -/
def releasePlayerBindings (ptr : List (String × String))
    (players : List (String × Player)) : List (String × String) :=
  players.foldl (fun m kp => mapDelete m kp.2.socketId) ptr

/-- `RoomManager.cleanupOldRooms`: sweep all rooms, deleting those that match
`shouldCleanupRoom` and releasing their player bindings. -/
def cleanupOldRooms (st : ManagerState) (now : Int) : ManagerState :=
  st.rooms.foldl
    (fun acc kr =>
      if shouldCleanupRoom kr.2 now then
        { rooms := mapDelete acc.rooms kr.1
          playerToRoom := releasePlayerBindings acc.playerToRoom kr.2.players }
      else acc)
    st

/-- The window test of `getRoomsToNotifyHostDisconnect`: host disconnected
strictly more than 5 seconds and strictly less than 30 seconds ago. -/
def inNotifyWindow (room : Room) (now : Int) : Bool :=
  match room.hostDisconnectedAt with
  | some t => decide (t < now - 5 * 1000) && decide (now - 30 * 1000 < t)
  | none => false

/-- `RoomManager.getRoomsToNotifyHostDisconnect`: the codes, in iteration
order, of the rooms inside the notify window. The server boundary runs this
every 2 seconds and emits a `hostDisconnected` event to every returned room
on every run. -/
def getRoomsToNotifyHostDisconnect (st : ManagerState) (now : Int) : List String :=
  (st.rooms.filter (fun kr => inNotifyWindow kr.2 now)).map Prod.fst

/-! ## CommandExtractor (src/backend/src/services/CommandExtractor.ts)

String primitives of JS are re-implemented at the character level so that
all matching functions evaluate inside the kernel: `strToLower` models
`toLowerCase` (ASCII), `strTrim` models `trim`, `hasSubstr` models
`includes`, `isPrefixB` underlies `startsWith`, `splitWords` models
`split(" ")` and `joinSpace` models `join(" ")`. -/

def lowerChar (c : Char) : Char :=
  if 'A' ≤ c ∧ c ≤ 'Z' then Char.ofNat (c.toNat + 32) else c

def strToLower (s : String) : String := ⟨s.data.map lowerChar⟩

def isSpaceChar (c : Char) : Bool :=
  c == ' ' || c == '\t' || c == '\n' || c == '\r'

def strTrim (s : String) : String :=
  ⟨((s.data.dropWhile isSpaceChar).reverse.dropWhile isSpaceChar).reverse⟩

def isPrefixB : List Char → List Char → Bool
  | [], _ => true
  | _ :: _, [] => false
  | a :: as, b :: bs => a == b && isPrefixB as bs

def hasSubstrAux (sub : List Char) : List Char → Bool
  | [] => isPrefixB sub []
  | c :: rest => isPrefixB sub (c :: rest) || hasSubstrAux sub rest

/-- `s.includes(sub)` of JS: `sub` occurs contiguously inside `s`. -/
def hasSubstr (s sub : String) : Bool := hasSubstrAux sub.data s.data

def splitWordsAux : List Char → List Char → List (List Char)
  | [], acc => [acc.reverse]
  | c :: rest, acc =>
    if c = ' ' then acc.reverse :: splitWordsAux rest []
    else splitWordsAux rest (c :: acc)

/-- `s.split(" ")` of JS. -/
def splitWords (s : String) : List String :=
  (splitWordsAux s.data []).map (fun l => ⟨l⟩)

def joinSpaceData : List (List Char) → List Char
  | [] => []
  | [w] => w
  | w :: rest => w ++ ' ' :: joinSpaceData rest

/-- `ws.join(" ")` of JS. -/
def joinSpace (ws : List String) : String := ⟨joinSpaceData (ws.map String.data)⟩

/-- The `PHRASE_MAP` table of `CommandExtractor`, verbatim. -/
def PHRASE_MAP : List (String × String) := [
  ("wifi", "pandas hack wifi"),
  ("gravity", "squirrels fight gravity"),
  ("homework", "llamas eat homework"),
  ("rockets", "turtles launch rockets"),
  ("tuxedos", "pigeons rock tuxedos"),
  ("waves", "cows surf waves"),
  ("math", "chickens study math"),
  ("cookies", "dolphins bake cookies"),
  ("poetry", "monkeys compose poetry"),
  ("sweaters", "sharks knit sweaters"),
  ("insurance", "beavers sell insurance"),
  ("murals", "eagles paint murals"),
  ("ferraris", "snails race ferraris"),
  ("yoga", "owls teach yoga"),
  ("castles", "crabs build castles"),
  ("chess", "whales play chess"),
  ("restaurants", "bats open restaurants"),
  ("websites", "foxes code websites"),
  ("podcasts", "bears host podcasts"),
  ("hair", "wolves braid hair"),
  ("storms", "goats forecast storms"),
  ("revolutions", "sheep lead revolutions"),
  ("tacos", "horses sell tacos"),
  ("karate", "ducks practice karate"),
  ("ninjas", "geese become ninjas"),
  ("helicopters", "rabbits fly helicopters"),
  ("kingdoms", "mice rule kingdoms"),
  ("symphonies", "rats compose symphonies"),
  ("mysteries", "bees solve mysteries"),
  ("pyramids", "ants build pyramids"),
  ("pizza", "jellyfish deliver pizza"),
  ("marathons", "starfish run marathons"),
  ("crime", "seahorses fight crime"),
  ("saxophone", "walrus plays saxophone"),
  ("pineapples", "seals juggle pineapples"),
  ("bands", "otters start bands"),
  ("dance", "platypus teaches dance"),
  ("bitcoin", "koalas invest bitcoin"),
  ("rainbows", "zebras paint rainbows"),
  ("volleyball", "giraffes play volleyball"),
  ("novels", "hippos author novels"),
  ("bread", "rhinos bake bread"),
  ("professionally", "elephants moonwalk professionally"),
  ("vacuums", "tigers sell vacuums"),
  ("mittens", "lions knit mittens"),
  ("ceramics", "cheetahs teach ceramics"),
  ("computers", "leopards fix computers"),
  ("opera", "panthers sing opera"),
  ("origami", "jaguars fold origami"),
  ("parties", "pumas host parties"),
  ("coffee", "badgers brew coffee"),
  ("hearts", "raccoons charm hearts"),
  ("screenplays", "possums draft screenplays"),
  ("drums", "armadillos play drums"),
  ("physics", "porcupines teach physics"),
  ("bicycles", "hedgehogs race bicycles"),
  ("pools", "moles dig pools"),
  ("flowers", "wombats sell flowers"),
  ("mainframes", "flamingos hack mainframes"),
  ("spotlight", "peacocks grab spotlight"),
  ("loudly", "parrots gossip loudly"),
  ("nails", "toucans paint nails"),
  ("feelings", "pelicans catch feelings"),
  ("magic", "herons practice magic"),
  ("lawyers", "swans become lawyers"),
  ("jazz", "geese honk jazz"),
  ("chaos", "doves spread chaos"),
  ("cupcakes", "vultures sell cupcakes"),
  ("kindergarten", "hawks teach kindergarten"),
  ("submarines", "falcons race submarines"),
  ("socks", "eagles snatch socks"),
  ("backwards", "condors fly backwards"),
  ("poorly", "ostriches hide poorly"),
  ("war", "emus wage war"),
  ("high", "kiwis bounce high"),
  ("internet", "penguins surf internet"),
  ("portraits", "puffins paint portraits"),
  ("fast", "sloths run fast"),
  ("jokes", "anteaters tell jokes"),
  ("ballads", "tapirs sing ballads"),
  ("hard", "capybaras chill hard"),
  ("spaceships", "beavers build spaceships"),
  ("boats", "otters hijack boats"),
  ("mockingly", "seals clap mockingly"),
  ("salsa", "walruses dance salsa"),
  ("jets", "manatees race jets"),
  ("knights", "narwhals joust knights"),
  ("gossip", "beluga whales gossip"),
  ("masterpieces", "orcas paint masterpieces"),
  ("systems", "dolphins hack systems"),
  ("fortunes", "porpoises tell fortunes"),
  ("disco", "whales sing disco"),
  ("blogs", "squid publish blogs"),
  ("treasure", "octopi grab treasure"),
  ("reality", "crabs pinch reality")]

/-- `PHRASE_MAP[wordLower]` of the source. -/
def phraseLookup (wordLower : String) : Option String := mapGet PHRASE_MAP wordLower

structure GameCommand where
  type : String
  command : String
  confidence : ℚ
  rawText : String
  matchScore : Option ℚ
deriving Repr, DecidableEq

/-- The trigger-word and fuzzy-prefix tiers of the dynamic-word loop of
`CommandExtractor.extract` (the code reached after the full-phrase and
partial-phrase checks fall through, lines 213 to 237 of the source). -/
def checkTriggerOrFuzzy (normalizedText : String) (confidence : ℚ)
    (rawText wordLower : String) : Option GameCommand :=
  if normalizedText = wordLower ∨ hasSubstr normalizedText wordLower = true then
    some { type := "game_specific", command := wordLower, confidence := confidence,
           rawText := rawText, matchScore := some 1 }
  else if 3 ≤ wordLower.data.length ∧ 2 ≤ normalizedText.data.length ∧
      isPrefixB normalizedText.data wordLower.data = true ∧
      (wordLower.data.length : ℚ) * (6 / 10) ≤ (normalizedText.data.length : ℚ) then
    some { type := "game_specific", command := wordLower, confidence := confidence * (9 / 10),
           rawText := rawText, matchScore := some (4 / 5) }
  else none

/-- One iteration of the dynamic-word loop of `CommandExtractor.extract`
(lines 153 to 237 of the source) for a single dynamic word: full phrase
(score 2.0), partial phrase (score 1.5, only when the phrase has at least
3 words: last two words, then first two words together with the trigger
word), then the trigger-word and fuzzy tiers. -/
def checkDynamicWord (normalizedText : String) (confidence : ℚ)
    (rawText word : String) : Option GameCommand :=
  let wordLower := strToLower word
  match phraseLookup wordLower with
  | some fullPhrase =>
    let phraseLower := strToLower fullPhrase
    let phraseWords := splitWords phraseLower
    if normalizedText = phraseLower ∨ hasSubstr normalizedText phraseLower = true then
      some { type := "game_specific", command := wordLower, confidence := confidence,
             rawText := rawText, matchScore := some 2 }
    else if 3 ≤ phraseWords.length then
      if hasSubstr normalizedText (joinSpace (phraseWords.drop (phraseWords.length - 2))) = true then
        some { type := "game_specific", command := wordLower, confidence := confidence,
               rawText := rawText, matchScore := some (3 / 2) }
      else if hasSubstr normalizedText (joinSpace (phraseWords.take 2)) = true ∧
          hasSubstr normalizedText wordLower = true then
        some { type := "game_specific", command := wordLower, confidence := confidence,
               rawText := rawText, matchScore := some (3 / 2) }
      else checkTriggerOrFuzzy normalizedText confidence rawText wordLower
    else checkTriggerOrFuzzy normalizedText confidence rawText wordLower
  | none => checkTriggerOrFuzzy normalizedText confidence rawText wordLower

/-- The dynamic-word section of `CommandExtractor.extract`: normalize the
transcript, then try the words in list order, returning the first hit. -/
def extractDynamic (text : String) (confidence : ℚ) (dynamicWords : List String) :
    Option GameCommand :=
  let normalizedText := strTrim (strToLower text)
  dynamicWords.findSome? (checkDynamicWord normalizedText confidence text)

/-- The tier cascade exactly as the specification words it, for comparison
with `checkDynamicWord`: score 2.0 when the transcript equals or contains
the full phrase; else 1.5 when the phrase has at least 3 words and the
transcript contains the last two words of the phrase, or its first two
words together with the trigger word; else 1.0 when the transcript equals
or contains the trigger word; else 0.8 with confidence times 0.9 when the
trigger word has length at least 3, the transcript length at least 2, the
trigger word starts with the transcript and the transcript covers at least
60 percent of the length of the trigger word; else no match. -/
def dynamicMatchSpec (normalizedText : String) (confidence : ℚ)
    (rawText word fullPhrase : String) : Option GameCommand :=
  let wordLower := strToLower word
  let phraseLower := strToLower fullPhrase
  let phraseWords := splitWords phraseLower
  if normalizedText = phraseLower ∨ hasSubstr normalizedText phraseLower = true then
    some { type := "game_specific", command := wordLower, confidence := confidence,
           rawText := rawText, matchScore := some 2 }
  else if 3 ≤ phraseWords.length ∧
      (hasSubstr normalizedText (joinSpace (phraseWords.drop (phraseWords.length - 2))) = true ∨
       (hasSubstr normalizedText (joinSpace (phraseWords.take 2)) = true ∧
        hasSubstr normalizedText wordLower = true)) then
    some { type := "game_specific", command := wordLower, confidence := confidence,
           rawText := rawText, matchScore := some (3 / 2) }
  else if normalizedText = wordLower ∨ hasSubstr normalizedText wordLower = true then
    some { type := "game_specific", command := wordLower, confidence := confidence,
           rawText := rawText, matchScore := some 1 }
  else if 3 ≤ wordLower.data.length ∧ 2 ≤ normalizedText.data.length ∧
      isPrefixB normalizedText.data wordLower.data = true ∧
      3 * wordLower.data.length ≤ 5 * normalizedText.data.length then
    some { type := "game_specific", command := wordLower, confidence := confidence * (9 / 10),
           rawText := rawText, matchScore := some (4 / 5) }
  else none

/-! ## GameManager (src/backend/src/services/GameManager.ts) -/

/-- The state touched by the countdown of `GameManager.startGame`: the
current counter, the session status, the list of counts emitted so far, a
flag recording that the 60 Hz tick loop was started, and whether the
1-second `setInterval` is still active. `startGame` sets the status to
countdown and the counter to 3. -/
structure CountdownState where
  count : Int
  status : String
  emitted : List Int
  loopStarted : Bool
  intervalActive : Bool
deriving Repr, DecidableEq

def countdownInit : CountdownState :=
  { count := 3, status := "countdown", emitted := [], loopStarted := false,
    intervalActive := true }

/-- One firing of the 1-second countdown interval: emit the current count,
decrement, and when the counter falls below zero clear the interval, set the
status to playing and start the tick loop — all inside this same firing. -/
def countdownStep (s : CountdownState) : CountdownState :=
  if s.intervalActive then
    let emitted := s.emitted ++ [s.count]
    let c := s.count - 1
    if c < 0 then
      { count := c, status := "playing", emitted := emitted, loopStarted := true,
        intervalActive := false }
    else
      { s with count := c, emitted := emitted }
  else s

/-- The countdown state after `n` interval firings, each 1 second apart. -/
def countdownRun : Nat → CountdownState
  | 0 => countdownInit
  | n + 1 => countdownStep (countdownRun n)

/-- The fields of a tug-of-war session used by command processing and end
detection (`TugOfWarState` of src/backend/src/types/game.ts). -/
structure TugOfWarStateM where
  status : String
  teamsRed : List String
  teamsBlue : List String
  playerWords : List (String × String)
  ropePosition : ℚ
  winner : Option String
deriving Repr, DecidableEq

/-- `GameManager.processTugOfWarCommand`: a red-team pull subtracts
`3 * matchScore` clamped at -100, a blue-team pull adds it clamped at 100;
a player on neither team is ignored. -/
def processTugOfWarCommand (game : TugOfWarStateM) (playerId : String)
    (matchScore : ℚ) : TugOfWarStateM :=
  let isRedTeam := game.teamsRed.contains playerId
  let isBlueTeam := game.teamsBlue.contains playerId
  if !isRedTeam && !isBlueTeam then game
  else
    let pullForce := 3 * matchScore
    if isRedTeam then
      { game with ropePosition := max (-100) (game.ropePosition - pullForce) }
    else
      { game with ropePosition := min 100 (game.ropePosition + pullForce) }

/-- The `processCommand` gate for a tug-of-war session: commands are ignored
unless the session status is playing. -/
def processTugCommand (game : TugOfWarStateM) (playerId : String)
    (matchScore : ℚ) : TugOfWarStateM :=
  if game.status = "playing" then processTugOfWarCommand game playerId matchScore
  else game

/-- The tug-of-war arm of `GameManager.checkGameEnd`: rope at -80 or beyond
crowns the first red player, at 80 or beyond the first blue player. -/
def checkTugGameEnd (game : TugOfWarStateM) : Bool × TugOfWarStateM :=
  if game.ropePosition ≤ -80 then
    (true, { game with winner := game.teamsRed.head? })
  else if 80 ≤ game.ropePosition then
    (true, { game with winner := game.teamsBlue.head? })
  else (false, game)

/-- The fields of a racer session used by command processing
(`VoiceRacerState` of src/backend/src/types/game.ts). -/
structure VoiceRacerStateM where
  status : String
  trackLength : ℚ
  playerPositions : List (String × ℚ)
  playerSpeeds : List (String × ℚ)
  playerWords : List (String × String)
  winner : Option String
deriving Repr, DecidableEq

/-- `GameManager.processVoiceRacerCommand`: ignored when the player has no
assigned word; otherwise the base boost is 0.06 below speed 0.015 and 0.04
from there, scaled by the match score, and the new speed is capped at
`0.15 * matchScore`. -/
def processVoiceRacerCommand (game : VoiceRacerStateM) (playerId : String)
    (matchScore : ℚ) : VoiceRacerStateM :=
  match mapGet game.playerWords playerId with
  | none => game
  | some _ =>
    let currentSpeed := (mapGet game.playerSpeeds playerId).getD 0
    let baseBoost : ℚ := if currentSpeed < 15 / 1000 then 6 / 100 else 4 / 100
    let boostAmount := baseBoost * matchScore
    let newSpeed := min (currentSpeed + boostAmount) (15 / 100 * matchScore)
    { game with playerSpeeds := mapSet game.playerSpeeds playerId newSpeed }

/-- The `processCommand` gate for a racer session. -/
def processRacerCommand (game : VoiceRacerStateM) (playerId : String)
    (matchScore : ℚ) : VoiceRacerStateM :=
  if game.status = "playing" then processVoiceRacerCommand game playerId matchScore
  else game

/-! ## Concrete states used in the theorems -/

/-- A constant random stream: every draw is index 0, so every generated code
is AAAA. -/
def gZero : Nat → Fin 26 := fun _ => 0

def examplePlayer : Player :=
  { id := "p1", name := "Alice", roomCode := "AAAA", socketId := "s1", connected := true }

/-- The room AAAA with host socket h and the single joined player p1, exactly
as produced by `createRoom` followed by `joinRoom`. -/
def exampleRoom : Room :=
  { code := "AAAA", hostSocketId := "h", players := [("p1", examplePlayer)],
    gameState := "waiting", createdAt := 0, hostDisconnectedAt := none,
    readyPlayers := [] }

/-- The registry holding `exampleRoom`: note the host socket h is absent from
`playerToRoom` — `createRoom` never inserts it, only `joinRoom` and
`reconnectPlayer` write that map. -/
def exampleState : ManagerState :=
  { rooms := [("AAAA", exampleRoom)], playerToRoom := [("s1", "AAAA")] }

/-- `exampleRoom` with the host disconnection recorded at time 0, used for the
notify-window theorems. -/
def exampleRoomDisc : Room := { exampleRoom with hostDisconnectedAt := some 0 }

def exampleStateDisc : ManagerState :=
  { rooms := [("AAAA", exampleRoomDisc)], playerToRoom := [("s1", "AAAA")] }

/-- A two-player tug-of-war session in playing status, rope at the centre. -/
def exampleTug : TugOfWarStateM :=
  { status := "playing", teamsRed := ["r1"], teamsBlue := ["b1"],
    playerWords := [("r1", "wifi"), ("b1", "gravity")], ropePosition := 0,
    winner := none }

/-- The session after `n` blue pulls of match score 2.0. -/
def bluePulls : Nat → TugOfWarStateM
  | 0 => exampleTug
  | n + 1 => processTugCommand (bluePulls n) "b1" 2

/-- A one-player racer session in playing status at speed 0. -/
def exampleRacer : VoiceRacerStateM :=
  { status := "playing", trackLength := 100, playerPositions := [("p1", 0)],
    playerSpeeds := [("p1", 0)], playerWords := [("p1", "wifi")], winner := none }

/-- `exampleRoom` whose host has been disconnected for far longer than the
30-second grace period. -/
def exampleRoomOld : Room := { exampleRoom with hostDisconnectedAt := some (-1000000) }

def exampleStateOld : ManagerState :=
  { rooms := [("AAAA", exampleRoomOld)], playerToRoom := [("s1", "AAAA")] }

/-- The registry produced by `createRoom` on the empty state with the all-zero
random stream. -/
def exampleCreated : ManagerState :=
  { rooms := [("AAAA", newRoom "AAAA" "h" 0)], playerToRoom := [] }

/-! ## Theorems -/

/-- Claim C1 (code bug). At the failing input — the registry reached by
`createRoom` (host socket h) followed by one `joinRoom` (player socket s1) —
calling `leaveRoom` with the host connection id returns `none` and leaves the
state untouched: `hostDisconnectedAt` stays `none` and no host-left result is
reported, because the `playerToRoom` lookup at the top of `leaveRoom` misses
(host sockets are never inserted into that map) and the function returns
before its host branch. The player path, by contrast, behaves as the claim
says: leaving with s1 keeps the player entry, sets `connected := false` and
reports a player-left result naming p1. -/
theorem leaveRoom_host_lookup_miss :
    (createRoom emptyManagerState gZero 1 "h" 0).map
        (fun r => joinRoom r.2 r.1 examplePlayer) = some (true, exampleState) ∧
    leaveRoom exampleState 1000 "h" = (none, exampleState) ∧
    (mapGet exampleState.rooms "AAAA").map Room.hostDisconnectedAt = some none ∧
    leaveRoom exampleState 1000 "s1" =
      (some { roomCode := "AAAA", playerId := "p1", isHost := false },
       { rooms := [("AAAA", { exampleRoom with
                      players := [("p1", { examplePlayer with connected := false })] })],
         playerToRoom := [] }) := by
  decide

/-- Claim C2 (code bug). Because `leaveRoom` never records the host
disconnection (claim C1), a room whose host left via `leaveRoom` does not
carry `hostDisconnectedAt`, so the cleanup sweep run 31 seconds later keeps
the room in the registry and keeps the player binding s1 — the claim promises
the room is gone and the bindings released. -/
theorem cleanup_keeps_room_after_host_leave :
    cleanupOldRooms (leaveRoom exampleState 1000 "h").2 32000 = exampleState ∧
    mapHas exampleState.rooms "AAAA" = true ∧
    mapGet exampleState.playerToRoom "s1" = some "AAAA" := by
  decide

/-- Claim C4, counterexample. The interval firing that emits count 0 (the
fourth firing) is the very firing that flips the status to playing and starts
the tick loop: before it the status is countdown with emissions 3,2,1, after
it the emissions are 3,2,1,0 and the status is already playing. This refutes
the claim that the transition never occurs in the same timer step that emits
count 0. -/
theorem countdown_transition_same_step_as_zero :
    (countdownRun 3).status = "countdown" ∧
    (countdownRun 3).loopStarted = false ∧
    (countdownRun 3).emitted = [3, 2, 1] ∧
    countdownRun 4 = countdownStep (countdownRun 3) ∧
    (countdownRun 4).emitted = [3, 2, 1, 0] ∧
    (countdownRun 4).status = "playing" ∧
    (countdownRun 4).loopStarted = true := by
  decide

/-- Claim C4 as amended. The countdown emits 3, 2, 1, 0 in order at 1-second
intervals (one emission per firing), the status stays countdown and the tick
loop is not started through the firing that emits 1, and the transition to
playing together with the tick-loop start happens in the same (fourth) firing
that emits 0; afterwards the interval is cleared, so further time changes
nothing. -/
theorem countdown_emissions_and_transition :
    (countdownRun 0).emitted = [] ∧
    (countdownRun 1).emitted = [3] ∧
    (countdownRun 2).emitted = [3, 2] ∧
    (countdownRun 3).emitted = [3, 2, 1] ∧
    (countdownRun 4).emitted = [3, 2, 1, 0] ∧
    (countdownRun 0).status = "countdown" ∧
    (countdownRun 1).status = "countdown" ∧
    (countdownRun 2).status = "countdown" ∧
    (countdownRun 3).status = "countdown" ∧
    (countdownRun 3).loopStarted = false ∧
    (countdownRun 4).status = "playing" ∧
    (countdownRun 4).loopStarted = true ∧
    countdownStep (countdownRun 4) = countdownRun 4 := by
  decide

/-- Claim C8, counterexample. With the host disconnection of room AAAA
recorded at time 0 and the host still away, the 2-second sweep surfaces the
room both at time 6000 and at time 8000; the boundary emits a
`hostDisconnected` notification for every surfaced room on every sweep, so
the players are notified (at least) twice in one disconnection episode,
refuting notified-exactly-once. -/
theorem hostDisconnect_notify_repeats :
    getRoomsToNotifyHostDisconnect exampleStateDisc 6000 = ["AAAA"] ∧
    getRoomsToNotifyHostDisconnect exampleStateDisc 8000 = ["AAAA"] := by
  decide

theorem mapGet_mapSet_self {α : Type} (m : List (String × α)) (k : String) (v : α) :
    mapGet (mapSet m k v) k = some v := by
  induction m with
  | nil => simp [mapSet, mapGet]
  | cons kv rest ih =>
    by_cases h : kv.1 = k
    · simp [mapSet, mapGet, h]
    · simp only [mapSet]
      rw [if_neg ?_]
      · simp only [mapGet]
        rw [if_neg h]
        exact ih
      · exact h

theorem mapHas_false_not_mem {α : Type} (m : List (String × α)) (k : String)
    (h : mapHas m k = false) : k ∉ m.map Prod.fst := by
  induction m with
  | nil => simp
  | cons kv rest ih =>
    simp only [mapHas, mapGet] at h
    by_cases hk : kv.1 = k
    · rw [if_pos hk] at h
      simp at h
    · rw [if_neg hk] at h
      simp only [List.map_cons, List.mem_cons]
      push_neg
      exact ⟨fun hc => hk hc.symm, ih h⟩

theorem mapSet_append_of_not_has {α : Type} (m : List (String × α)) (k : String) (v : α)
    (h : mapHas m k = false) : mapSet m k v = m ++ [(k, v)] := by
  induction m with
  | nil => simp [mapSet]
  | cons kv rest ih =>
    simp only [mapHas, mapGet] at h
    by_cases hk : kv.1 = k
    · rw [if_pos hk] at h
      simp at h
    · rw [if_neg hk] at h
      simp only [mapSet]
      rw [if_neg hk, List.cons_append, ih h]

/-- Claim C5. `reconnectHost` returns `none` exactly when the room is absent
from the registry, and on success it rebinds only the host connection id and
clears `hostDisconnectedAt`, leaving the room code, player map, status,
creation time and ready states unchanged, and leaving `playerToRoom`
untouched. The operation takes no notion of time at all, so in particular it
cannot fail because the 30-second grace period elapsed while the room is
still registered. -/
theorem reconnectHost_rebinds_only_host :
    ∀ (st : ManagerState) (code newId : String),
      ((reconnectHost st code newId).1 = none ↔ mapGet st.rooms code = none) ∧
      ∀ room, mapGet st.rooms code = some room →
        reconnectHost st code newId =
          (some { room with hostSocketId := newId, hostDisconnectedAt := none },
           { st with rooms := (mapSet st.rooms code
               { room with hostSocketId := newId, hostDisconnectedAt := none }) }) := by
  intro st code newId
  constructor
  · cases h : mapGet st.rooms code <;> simp [reconnectHost, h]
  · intro room h
    simp [reconnectHost, h]

/-- Witness for claim C5: rebinding the host of room AAAA succeeds on a room
whose host has been disconnected far beyond the grace period, producing
exactly the rebound room. -/
theorem reconnectHost_rebinds_witness :
    reconnectHost exampleStateOld "AAAA" "h2" =
      (some { exampleRoomOld with hostSocketId := "h2", hostDisconnectedAt := none },
       { exampleStateOld with rooms := (mapSet exampleStateOld.rooms "AAAA"
           { exampleRoomOld with hostSocketId := "h2", hostDisconnectedAt := none }) }) :=
  (reconnectHost_rebinds_only_host exampleStateOld "AAAA" "h2").2 exampleRoomOld rfl

/-- Claim C8 as amended. A room code is surfaced by the 2-second sweep at
time `now` exactly when the registry binds it to a room whose
`hostDisconnectedAt` lies strictly between 5 and 30 seconds before `now`;
the sweep itself deletes nothing (it is a pure read), the boundary emits a
notification for every surfaced room on every sweep — so players are
notified on each 2-second sweep of that window rather than exactly once —
and a room whose host reconnected (clearing `hostDisconnectedAt`) is never
surfaced. -/
theorem notify_window_characterization :
    ∀ (st : ManagerState) (now : Int) (code : String),
      code ∈ getRoomsToNotifyHostDisconnect st now ↔
      ∃ kr ∈ st.rooms, kr.1 = code ∧ ∃ t, kr.2.hostDisconnectedAt = some t ∧
        t < now - 5 * 1000 ∧ now - 30 * 1000 < t := by
  intro st now code
  simp only [getRoomsToNotifyHostDisconnect, List.mem_map, List.mem_filter]
  constructor
  · rintro ⟨kr, ⟨hmem, hwin⟩, hcode⟩
    refine ⟨kr, hmem, hcode, ?_⟩
    unfold inNotifyWindow at hwin
    cases ht : kr.2.hostDisconnectedAt with
    | none => rw [ht] at hwin; simp at hwin
    | some t =>
      rw [ht] at hwin
      simp only [Bool.and_eq_true, decide_eq_true_eq] at hwin
      exact ⟨t, rfl, hwin.1, hwin.2⟩
  · rintro ⟨kr, hmem, hcode, t, ht, h1, h2⟩
    refine ⟨kr, ⟨hmem, ?_⟩, hcode⟩
    unfold inNotifyWindow
    rw [ht]
    simp only [Bool.and_eq_true, decide_eq_true_eq]
    exact ⟨h1, h2⟩

/-- Witness for claim C8: room AAAA, host disconnected at time 0, is surfaced
by the sweep at time 10000. -/
theorem notify_window_witness :
    "AAAA" ∈ getRoomsToNotifyHostDisconnect exampleStateDisc 10000 :=
  (notify_window_characterization exampleStateDisc 10000 "AAAA").mpr
    ⟨("AAAA", exampleRoomDisc), by decide, rfl, 0, rfl, by decide, by decide⟩

theorem roomCodeCharAt_upper : ∀ i : Fin 26, 'A' ≤ roomCodeCharAt i ∧ roomCodeCharAt i ≤ 'Z' := by
  decide

theorem buildRoomCode_length (g : Nat → Fin 26) (a : Nat) :
    (buildRoomCode g a).data.length = 4 := rfl

theorem buildRoomCode_upper (g : Nat → Fin 26) (a : Nat) :
    ∀ c ∈ (buildRoomCode g a).data, 'A' ≤ c ∧ c ≤ 'Z' := by
  intro c hc
  simp only [buildRoomCode, List.mem_cons, List.not_mem_nil, or_false] at hc
  rcases hc with h | h | h | h <;> (rw [h]; exact roomCodeCharAt_upper _)

theorem generateRoomCodeAux_spec (rooms : List (String × Room)) (g : Nat → Fin 26) :
    ∀ (fuel attempt : Nat) (code : String),
      generateRoomCodeAux rooms g attempt fuel = some code →
      (∃ a, code = buildRoomCode g a) ∧ mapHas rooms code = false := by
  intro fuel
  induction fuel with
  | zero => intro attempt code h; simp [generateRoomCodeAux] at h
  | succ n ih =>
    intro attempt code h
    simp only [generateRoomCodeAux] at h
    by_cases hh : mapHas rooms (buildRoomCode g attempt)
    · rw [if_pos hh] at h
      exact ih (attempt + 1) code h
    · rw [if_neg hh] at h
      cases h
      exact ⟨⟨attempt, rfl⟩, Bool.eq_false_iff.mpr hh⟩

/-- Claim C9. Every code produced by `createRoom` is exactly 4 characters,
all uppercase letters A to Z, and is rejection-sampled against the current
registry, hence absent from it at creation; the new room is appended under
that code, so when the registry codes were pairwise distinct before, they
remain pairwise distinct after the insertion. -/
theorem createRoom_code_shape_and_unique :
    ∀ (st : ManagerState) (g : Nat → Fin 26) (fuel : Nat) (hostId : String)
      (now : Int) (code : String) (st2 : ManagerState),
      createRoom st g fuel hostId now = some (code, st2) →
      code.data.length = 4 ∧
      (∀ c ∈ code.data, 'A' ≤ c ∧ c ≤ 'Z') ∧
      mapHas st.rooms code = false ∧
      st2.rooms = st.rooms ++ [(code, newRoom code hostId now)] ∧
      ((st.rooms.map Prod.fst).Nodup → (st2.rooms.map Prod.fst).Nodup) := by
  intro st g fuel hostId now code st2 h
  simp only [createRoom] at h
  cases hgen : generateRoomCode st.rooms g fuel with
  | none => rw [hgen] at h; simp at h
  | some c =>
    rw [hgen] at h
    simp only [Option.some.injEq, Prod.mk.injEq] at h
    obtain ⟨hc, hst⟩ := h
    subst hc
    obtain ⟨⟨a, ha⟩, hfresh⟩ := generateRoomCodeAux_spec st.rooms g fuel 0 c hgen
    have hrooms : st2.rooms = st.rooms ++ [(c, newRoom c hostId now)] := by
      rw [← hst]
      exact mapSet_append_of_not_has st.rooms c _ hfresh
    refine ⟨by rw [ha]; exact buildRoomCode_length g a,
            by rw [ha]; exact buildRoomCode_upper g a, hfresh, hrooms, ?_⟩
    intro hnodup
    rw [hrooms, List.map_append, List.nodup_append]
    refine ⟨hnodup, by simp, ?_⟩
    intro x hx
    simp only [List.map_cons, List.map_nil, List.mem_singleton]
    intro hxc
    exact mapHas_false_not_mem st.rooms c hfresh (hxc ▸ hx)

/-- Witness for claim C9: creating a room on the empty registry with the
all-zero draw stream produces code AAAA, 4 uppercase letters, fresh, and the
resulting registry keys stay pairwise distinct. -/
theorem createRoom_code_witness :
    "AAAA".data.length = 4 ∧
    (∀ c ∈ "AAAA".data, 'A' ≤ c ∧ c ≤ 'Z') ∧
    mapHas emptyManagerState.rooms "AAAA" = false ∧
    exampleCreated.rooms = emptyManagerState.rooms ++ [("AAAA", newRoom "AAAA" "h" 0)] ∧
    ((emptyManagerState.rooms.map Prod.fst).Nodup → (exampleCreated.rooms.map Prod.fst).Nodup) :=
  createRoom_code_shape_and_unique emptyManagerState gZero 1 "h" 0 "AAAA" exampleCreated rfl

theorem processTug_red_rope (g : TugOfWarStateM) (pid : String) (ms : ℚ)
    (hs : g.status = "playing") (hr : g.teamsRed.contains pid = true) :
    processTugCommand g pid ms =
      { g with ropePosition := max (-100) (g.ropePosition - 3 * ms) } := by
  have hmem : pid ∈ g.teamsRed := by simpa using hr
  simp [processTugCommand, processTugOfWarCommand, hs, hmem]

theorem processTug_blue_rope (g : TugOfWarStateM) (pid : String) (ms : ℚ)
    (hs : g.status = "playing") (hb : g.teamsBlue.contains pid = true)
    (hr : g.teamsRed.contains pid = false) :
    processTugCommand g pid ms =
      { g with ropePosition := min 100 (g.ropePosition + 3 * ms) } := by
  have hbm : pid ∈ g.teamsBlue := by simpa using hb
  have hrm : pid ∉ g.teamsRed := by simpa using hr
  simp [processTugCommand, processTugOfWarCommand, hs, hbm, hrm]

theorem bluePulls_fields (n : Nat) :
    (bluePulls n).status = "playing" ∧ (bluePulls n).teamsRed = ["r1"] ∧
      (bluePulls n).teamsBlue = ["b1"] := by
  induction n with
  | zero => exact ⟨rfl, rfl, rfl⟩
  | succ k ih =>
    have hstep : bluePulls (k + 1) =
        { bluePulls k with ropePosition := min 100 ((bluePulls k).ropePosition + 3 * 2) } := by
      show processTugCommand (bluePulls k) "b1" 2 = _
      exact processTug_blue_rope (bluePulls k) "b1" 2 ih.1
        (by rw [ih.2.2]; rfl) (by rw [ih.2.1]; rfl)
    rw [hstep]
    exact ih

theorem bluePulls_rope_succ (n : Nat) :
    (bluePulls (n + 1)).ropePosition = min 100 ((bluePulls n).ropePosition + 3 * 2) := by
  have ih := bluePulls_fields n
  have hstep := processTug_blue_rope (bluePulls n) "b1" 2 ih.1
    (by rw [ih.2.2]; rfl) (by rw [ih.2.1]; rfl)
  show (processTugCommand (bluePulls n) "b1" 2).ropePosition = _
  rw [hstep]

/-- Claim C6. In a playing tug-of-war session, a red-team action moves the
rope by minus `3 * matchScore` clamped at -100 and a blue-team action by plus
`3 * matchScore` clamped at 100; concretely, from rope 0 a single blue 2.0
pull yields rope 6, thirteen pulls yield 78 (the end check still fails),
fourteen pulls yield 84, and there the end check fires and crowns the first
player of the blue team list. -/
theorem tugOfWar_pull_and_blue_win :
    (∀ (g : TugOfWarStateM) (pid : String) (ms : ℚ), g.status = "playing" →
       g.teamsRed.contains pid = true →
       processTugCommand g pid ms =
         { g with ropePosition := max (-100) (g.ropePosition - 3 * ms) }) ∧
    (∀ (g : TugOfWarStateM) (pid : String) (ms : ℚ), g.status = "playing" →
       g.teamsBlue.contains pid = true → g.teamsRed.contains pid = false →
       processTugCommand g pid ms =
         { g with ropePosition := min 100 (g.ropePosition + 3 * ms) }) ∧
    (bluePulls 1).ropePosition = 6 ∧
    (bluePulls 13).ropePosition = 78 ∧
    (checkTugGameEnd (bluePulls 13)).1 = false ∧
    (bluePulls 14).ropePosition = 84 ∧
    (checkTugGameEnd (bluePulls 14)).1 = true ∧
    (checkTugGameEnd (bluePulls 14)).2.winner = some "b1" ∧
    exampleTug.teamsBlue.head? = some "b1" := by
  have r0 : (bluePulls 0).ropePosition = 0 := rfl
  have r1 : (bluePulls 1).ropePosition = 6 := by
    rw [bluePulls_rope_succ, r0]; norm_num [min_def]
  have r2 : (bluePulls 2).ropePosition = 12 := by
    rw [bluePulls_rope_succ, r1]; norm_num [min_def]
  have r3 : (bluePulls 3).ropePosition = 18 := by
    rw [bluePulls_rope_succ, r2]; norm_num [min_def]
  have r4 : (bluePulls 4).ropePosition = 24 := by
    rw [bluePulls_rope_succ, r3]; norm_num [min_def]
  have r5 : (bluePulls 5).ropePosition = 30 := by
    rw [bluePulls_rope_succ, r4]; norm_num [min_def]
  have r6 : (bluePulls 6).ropePosition = 36 := by
    rw [bluePulls_rope_succ, r5]; norm_num [min_def]
  have r7 : (bluePulls 7).ropePosition = 42 := by
    rw [bluePulls_rope_succ, r6]; norm_num [min_def]
  have r8 : (bluePulls 8).ropePosition = 48 := by
    rw [bluePulls_rope_succ, r7]; norm_num [min_def]
  have r9 : (bluePulls 9).ropePosition = 54 := by
    rw [bluePulls_rope_succ, r8]; norm_num [min_def]
  have r10 : (bluePulls 10).ropePosition = 60 := by
    rw [bluePulls_rope_succ, r9]; norm_num [min_def]
  have r11 : (bluePulls 11).ropePosition = 66 := by
    rw [bluePulls_rope_succ, r10]; norm_num [min_def]
  have r12 : (bluePulls 12).ropePosition = 72 := by
    rw [bluePulls_rope_succ, r11]; norm_num [min_def]
  have r13 : (bluePulls 13).ropePosition = 78 := by
    rw [bluePulls_rope_succ, r12]; norm_num [min_def]
  have r14 : (bluePulls 14).ropePosition = 84 := by
    rw [bluePulls_rope_succ, r13]; norm_num [min_def]
  have e13a : ¬((bluePulls 13).ropePosition ≤ -80) := by rw [r13]; norm_num
  have e13b : ¬((80 : ℚ) ≤ (bluePulls 13).ropePosition) := by rw [r13]; norm_num
  have e14a : ¬((bluePulls 14).ropePosition ≤ -80) := by rw [r14]; norm_num
  have e14b : (80 : ℚ) ≤ (bluePulls 14).ropePosition := by rw [r14]; norm_num
  have hblue : (bluePulls 14).teamsBlue = ["b1"] := (bluePulls_fields 14).2.2
  refine ⟨processTug_red_rope, processTug_blue_rope, r1, r13, ?_, r14, ?_, ?_, rfl⟩
  · simp [checkTugGameEnd, e13a, e13b]
  · simp [checkTugGameEnd, e14a, e14b]
  · simp [checkTugGameEnd, e14a, e14b, hblue]

/-- Witness for claim C6: applied at the concrete two-player session, a red
1.0 pull from rope 0 gives exactly the clamped update. -/
theorem tugOfWar_pull_witness :
    processTugCommand exampleTug "r1" 1 =
      { exampleTug with ropePosition := max (-100) (exampleTug.ropePosition - 3 * 1) } :=
  tugOfWar_pull_and_blue_win.1 exampleTug "r1" 1 rfl rfl

/-- Claim C7. In a playing racer session, an action of a player with an
assigned word sets the speed of that player to
`min (speed + boost) (0.15 * matchScore)` with
`boost = (if speed < 0.015 then 0.06 else 0.04) * matchScore`; from speed 0 a
1.0 match yields 0.06 and a 2.0 match yields 0.12. -/
theorem racer_boost_formula :
    (∀ (g : VoiceRacerStateM) (pid w : String) (ms : ℚ), g.status = "playing" →
       mapGet g.playerWords pid = some w →
       mapGet (processRacerCommand g pid ms).playerSpeeds pid =
         some (min ((mapGet g.playerSpeeds pid).getD 0 +
             (if (mapGet g.playerSpeeds pid).getD 0 < 15 / 1000 then (6 : ℚ) / 100 else 4 / 100) * ms)
           (15 / 100 * ms))) ∧
    mapGet (processRacerCommand exampleRacer "p1" 1).playerSpeeds "p1" = some (6 / 100) ∧
    mapGet (processRacerCommand exampleRacer "p1" 2).playerSpeeds "p1" = some (12 / 100) := by
  have hgen : ∀ (g : VoiceRacerStateM) (pid w : String) (ms : ℚ), g.status = "playing" →
      mapGet g.playerWords pid = some w →
      mapGet (processRacerCommand g pid ms).playerSpeeds pid =
        some (min ((mapGet g.playerSpeeds pid).getD 0 +
            (if (mapGet g.playerSpeeds pid).getD 0 < 15 / 1000 then (6 : ℚ) / 100 else 4 / 100) * ms)
          (15 / 100 * ms)) := by
    intro g pid w ms hs hw
    simp only [processRacerCommand, if_pos hs, processVoiceRacerCommand, hw]
    exact mapGet_mapSet_self g.playerSpeeds pid _
  have hspeed : (mapGet exampleRacer.playerSpeeds "p1").getD 0 = (0 : ℚ) := rfl
  have hlt : ((0 : ℚ) < 15 / 1000) := by norm_num
  refine ⟨hgen, ?_, ?_⟩
  · rw [hgen exampleRacer "p1" "wifi" 1 rfl rfl, hspeed, if_pos hlt]
    norm_num [min_def]
  · rw [hgen exampleRacer "p1" "wifi" 2 rfl rfl, hspeed, if_pos hlt]
    norm_num [min_def]

/-- Witness for claim C7: the speed-update formula applied at the concrete
one-player session with a 1.0 match. -/
theorem racer_boost_witness :
    mapGet (processRacerCommand exampleRacer "p1" 1).playerSpeeds "p1" =
      some (min ((mapGet exampleRacer.playerSpeeds "p1").getD 0 +
          (if (mapGet exampleRacer.playerSpeeds "p1").getD 0 < 15 / 1000 then (6 : ℚ) / 100 else 4 / 100) * 1)
        (15 / 100 * 1)) :=
  racer_boost_formula.1 exampleRacer "p1" "wifi" 1 rfl rfl

theorem sixTenths_le_iff (w t : Nat) :
    ((w : ℚ) * (6 / 10) ≤ (t : ℚ)) ↔ 3 * w ≤ 5 * t := by
  constructor
  · intro h
    have h2 : (3 * w : ℚ) ≤ 5 * t := by linarith
    exact_mod_cast h2
  · intro h
    have h2 : (3 * w : ℚ) ≤ 5 * t := by exact_mod_cast h
    linarith

theorem checkDynamicWord_eq_spec :
    ∀ (t : String) (conf : ℚ) (raw word p : String),
      phraseLookup (strToLower word) = some p →
      checkDynamicWord t conf raw word = dynamicMatchSpec t conf raw word p := by
  intro t conf raw word p h
  simp only [checkDynamicWord, dynamicMatchSpec, h]
  have htail : checkTriggerOrFuzzy t conf raw (strToLower word) =
      (if t = strToLower word ∨ hasSubstr t (strToLower word) = true then
        some { type := "game_specific", command := strToLower word, confidence := conf,
               rawText := raw, matchScore := some 1 }
      else if 3 ≤ (strToLower word).data.length ∧ 2 ≤ t.data.length ∧
          isPrefixB t.data (strToLower word).data = true ∧
          3 * (strToLower word).data.length ≤ 5 * t.data.length then
        some { type := "game_specific", command := strToLower word,
               confidence := conf * (9 / 10), rawText := raw, matchScore := some (4 / 5) }
      else none) := by
    simp only [checkTriggerOrFuzzy, sixTenths_le_iff]
  by_cases h1 : (t = strToLower p ∨ hasSubstr t (strToLower p) = true)
  · rw [if_pos h1, if_pos h1]
  · rw [if_neg h1, if_neg h1]
    by_cases h2 : 3 ≤ (splitWords (strToLower p)).length
    · rw [if_pos h2]
      by_cases h3 : hasSubstr t (joinSpace ((splitWords (strToLower p)).drop
          ((splitWords (strToLower p)).length - 2))) = true
      · rw [if_pos h3, if_pos ⟨h2, Or.inl h3⟩]
      · rw [if_neg h3]
        by_cases h4 : (hasSubstr t (joinSpace ((splitWords (strToLower p)).take 2)) = true ∧
            hasSubstr t (strToLower word) = true)
        · rw [if_pos h4, if_pos ⟨h2, Or.inr h4⟩]
        · rw [if_neg h4, if_neg ?_, htail]
          rintro ⟨-, h5 | h5⟩
          · exact h3 h5
          · exact h4 h5
    · rw [if_neg h2, if_neg ?_, htail]
      rintro ⟨h5, -⟩
      exact h2 h5

/-- Claim C3. The dynamic-word matcher applies the four tiers in priority
order and returns the first hit with its tier score, exactly as the
specification words it (`dynamicMatchSpec`), and on the concrete wifi
examples: the full phrase scores 2.0, its last two words score 1.5, the bare
trigger word scores 1.0, the truncation wif scores 0.8 with the confidence
multiplied by 0.9, and gravity produces no match against the word wifi. -/
theorem extract_tier_cascade :
    (∀ (t : String) (conf : ℚ) (raw word p : String),
       phraseLookup (strToLower word) = some p →
       checkDynamicWord t conf raw word = dynamicMatchSpec t conf raw word p) ∧
    extractDynamic "pandas hack wifi" 1 ["wifi"] =
      some { type := "game_specific", command := "wifi", confidence := 1,
             rawText := "pandas hack wifi", matchScore := some 2 } ∧
    extractDynamic "hack wifi" 1 ["wifi"] =
      some { type := "game_specific", command := "wifi", confidence := 1,
             rawText := "hack wifi", matchScore := some (3 / 2) } ∧
    extractDynamic "wifi" 1 ["wifi"] =
      some { type := "game_specific", command := "wifi", confidence := 1,
             rawText := "wifi", matchScore := some 1 } ∧
    extractDynamic "wif" 1 ["wifi"] =
      some { type := "game_specific", command := "wifi", confidence := 1 * (9 / 10),
             rawText := "wif", matchScore := some (4 / 5) } ∧
    (1 : ℚ) * (9 / 10) = 9 / 10 ∧
    extractDynamic "gravity" 1 ["wifi"] = none := by
  have hcdw : checkDynamicWord "wif" 1 "wif" "wifi" =
      some { type := "game_specific", command := "wifi", confidence := 1 * (9 / 10),
             rawText := "wif", matchScore := some (4 / 5) } :=
    (checkDynamicWord_eq_spec "wif" 1 "wif" "wifi" "pandas hack wifi" rfl).trans rfl
  have hwif : extractDynamic "wif" 1 ["wifi"] =
      some { type := "game_specific", command := "wifi", confidence := 1 * (9 / 10),
             rawText := "wif", matchScore := some (4 / 5) } := by
    have hstep : extractDynamic "wif" 1 ["wifi"] =
        List.findSome? (checkDynamicWord "wif" 1 "wif") ["wifi"] := rfl
    rw [hstep, List.findSome?]
    rw [hcdw]
  exact ⟨checkDynamicWord_eq_spec, rfl, rfl, rfl, hwif, by norm_num, rfl⟩

/-- Witness for claim C3: the cascade equality applied at transcript
hack wifi against the word wifi with its mapped phrase. -/
theorem extract_tier_witness :
    checkDynamicWord "hack wifi" 1 "hack wifi" "wifi" =
      dynamicMatchSpec "hack wifi" 1 "hack wifi" "wifi" "pandas hack wifi" :=
  extract_tier_cascade.1 "hack wifi" 1 "hack wifi" "wifi" "pandas hack wifi" rfl

/-- Claim C10. Dynamic words are tried in list order with all four tiers of
one word exhausted before the next word is considered: against the transcript
wifi squirrels fight gravity, the word list wifi, gravity returns the bare
trigger-word match of the earlier word wifi (score 1.0) even though the later
word gravity would have produced a full-phrase match (score 2.0), as the
singleton list shows. -/
theorem earlier_word_lower_tier_precedence :
    extractDynamic "wifi squirrels fight gravity" 1 ["wifi", "gravity"] =
      some { type := "game_specific", command := "wifi", confidence := 1,
             rawText := "wifi squirrels fight gravity", matchScore := some 1 } ∧
    extractDynamic "wifi squirrels fight gravity" 1 ["gravity"] =
      some { type := "game_specific", command := "gravity", confidence := 1,
             rawText := "wifi squirrels fight gravity", matchScore := some 2 } :=
  ⟨rfl, rfl⟩
